import Mathlib

/-!
Shallow embedding of `src/gs-plugin-android/gs-plugin-android.c`, the
gnome-software plugin adapting the FuriOS Android Store D-Bus service.
Pure functions below mirror the plugin's callbacks and async entry points;
the mutable `GsApp` objects of the C code become explicit value passing.
External host-library collaborators (GsApp state bookkeeping, GsAppList
containers, query accessors, D-Bus error stripping) are modelled from the
spec at their interface boundary, as marked on each definition.
-/

set_option autoImplicit false

namespace AndroidPlugin

/-- The subset of `GsAppState` values this plugin reads or writes. -/
inductive GsAppState where
  | unknown
  | available
  | installing
  | installed
  | updatable
  | removing
deriving DecidableEq, Repr

/-- The subset of `AsComponentKind` values this plugin uses. -/
inductive AsComponentKind where
  | unknown
  | desktopApp
  | repository
deriving DecidableEq, Repr

/-- The `GsAppQuality` levels used when setting the display name. -/
inductive NameQuality where
  | lowest
  | normal
deriving DecidableEq, Repr

/-- Value model of a `GsApp` object, holding exactly the fields this plugin
touches. `managedByAndroid` models `gs_app_has_management_plugin (app, plugin)`
against this plugin. `sources` holds the arguments of `gs_app_add_source`
(the C passes a possibly-NULL `id`, hence `Option String`). -/
structure GsApp where
  appId : Option String
  kind : AsComponentKind
  state : GsAppState
  stateRecover : GsAppState
  managedByAndroid : Bool
  metadata : List (String × String)
  sources : List (Option String)
  icons : List String
  name : Option String
  nameQuality : NameQuality
  summary : Option String
  description : Option String
  license : Option String
  developerName : Option String
  homepage : Option String
  version : Option String
  updateVersion : Option String
  quirks : List String
  kudos : List String
deriving DecidableEq, Repr

/-- Model of `gs_app_new (id)`: a fresh app object with everything unset. -/
def gs_app_new (id : Option String) : GsApp :=
  { appId := id
    kind := .unknown
    state := .unknown
    stateRecover := .unknown
    managedByAndroid := false
    metadata := []
    sources := []
    icons := []
    name := none
    nameQuality := .normal
    summary := none
    description := none
    license := none
    developerName := none
    homepage := none
    version := none
    updateVersion := none
    quirks := []
    kudos := [] }

/-- Model of `gs_app_set_metadata (app, key, value)`: value `NULL` removes the key,
otherwise the key is (re)bound; lookup takes the most recent binding. -/
def gs_app_set_metadata (a : GsApp) (key : String) (value : Option String) : GsApp :=
  match value with
  | some v => { a with metadata := (key, v) :: a.metadata }
  | none => { a with metadata := a.metadata.filter (fun kv => kv.1 ≠ key) }

/-- Model of `gs_app_get_metadata_item (app, key)` (NULL when absent). -/
def gs_app_get_metadata_item (a : GsApp) (key : String) : Option String :=
  (a.metadata.find? (fun kv => kv.1 = key)).map (fun kv => kv.2)

/-- Modelled from the spec: `gs_app_set_state` is host-library code (not in
`src/`); the spec's operation state machine says a transition into a
transient state (Installing/Removing) records the prior state so that a
failure can roll back to it. -/
def gs_app_set_state (a : GsApp) (st : GsAppState) : GsApp :=
  match st with
  | .installing => { a with state := st, stateRecover := a.state }
  | .removing => { a with state := st, stateRecover := a.state }
  | _ => { a with state := st }

/-- Modelled from the spec: `gs_app_set_state_recover` is host-library code
(not in `src/`); per the spec, on remote failure "state reverts to its prior
value (recoverable rollback)". -/
def gs_app_set_state_recover (a : GsApp) : GsApp :=
  { a with state := a.stateRecover }

/-- Model of `gs_app_add_source (app, source)`. -/
def gs_app_add_source (a : GsApp) (src : Option String) : GsApp :=
  { a with sources := a.sources ++ [src] }

/-- Adapter-wide mutable state: the two app caches of `GsPluginAndroid`.
Modelled from the spec: `GsAppList` is host-library code (not in `src/`);
the spec describes the caches as "two ordered mutable containers", with
`gs_app_list_add` appending and `gs_app_list_remove_all` clearing. -/
structure PluginState where
  installedApps : List GsApp
  updatableApps : List GsApp
deriving DecidableEq, Repr

/-- One field-map entry of a `GetInstalledApps` / `GetUpgradable` reply:
every field is an optional string, absent keys leave the C locals NULL. -/
structure FieldEntry where
  packageName : Option String
  entryName : Option String
  id : Option String
  currentVersion : Option String
  availableVersion : Option String
  repository : Option String
deriving DecidableEq, Repr

/-- The shared display-name rule of both field-map decoders: `name` when
non-empty at NORMAL quality, else the package name at LOWEST quality. -/
def setDecodedName (a : GsApp) (entryName : Option String) (pn : String) : GsApp :=
  match entryName with
  | some n =>
    if n ≠ "" then { a with name := some n, nameQuality := .normal }
    else { a with name := some pn, nameQuality := .lowest }
  | none => { a with name := some pn, nameQuality := .lowest }

/-- The per-entry body of the loop in `fdroid_get_upgradable_cb`
(gs-plugin-android.c:212-267): entries without `packageName` produce no
app; note the `android::package-name` metadata is set to `id`, not to
`packageName`, exactly as in the C. -/
def decodeUpgradableEntry (e : FieldEntry) : Option GsApp :=
  match e.packageName with
  | none => none
  | some pn =>
    let a := gs_app_new e.id
    let a := { a with kind := .desktopApp, managedByAndroid := true }
    let a := setDecodedName a e.entryName pn
    let a := gs_app_set_metadata a "android::package-name" e.id
    let a := match e.repository with
      | some r => gs_app_set_metadata a "android-store::repository" (some r)
      | none => a
    let a := gs_app_add_source a e.id
    let a := gs_app_set_metadata a "GnomeSoftware::PackagingFormat" (some "apk")
    let a := gs_app_set_state a .updatable
    let a := { a with kudos := a.kudos ++ ["sandboxed-secure"] }
    let a := match e.currentVersion with
      | some v => { a with version := some v }
      | none => a
    let a := match e.availableVersion with
      | some v => { a with updateVersion := some v }
      | none => a
    some a

/-- The per-entry body of the loop in `fdroid_get_installed_apps_cb`
(gs-plugin-android.c:303-342): entries without `packageName` produce no
app; here `android::package-name` is set to `packageName`. -/
def decodeInstalledEntry (e : FieldEntry) : Option GsApp :=
  match e.packageName with
  | none => none
  | some pn =>
    let a := gs_app_new e.id
    let a := { a with kind := .desktopApp, managedByAndroid := true }
    let a := { a with quirks := a.quirks ++ ["has-source"] }
    let a := { a with kudos := a.kudos ++ ["sandboxed-secure"] }
    let a := setDecodedName a e.entryName pn
    let a := gs_app_set_metadata a "android::package-name" (some pn)
    let a := gs_app_add_source a e.id
    let a := gs_app_set_state a .installed
    some a

/-- Model of `fdroid_get_upgradable_cb` after a successful D-Bus reply: each decoded
app is appended both to the returned list and to the updatable-apps cache,
which is never cleared. -/
def fdroid_get_upgradable_cb (s : PluginState) (reply : List FieldEntry) :
    PluginState × List GsApp :=
  let decoded := reply.filterMap decodeUpgradableEntry
  ({ s with updatableApps := s.updatableApps ++ decoded }, decoded)

/-- Model of `fdroid_get_installed_apps_cb` after a successful D-Bus reply: the
installed-apps cache is cleared (`gs_app_list_remove_all`) and repopulated
with the decoded apps, which are also returned. -/
def fdroid_get_installed_apps_cb (s : PluginState) (reply : List FieldEntry) :
    PluginState × List GsApp :=
  let decoded := reply.filterMap decodeInstalledEntry
  ({ s with installedApps := decoded }, decoded)

/-- Runs `n` consecutive updatable-listing refreshes, each with the same reply. -/
def refreshUpgradableN : Nat → PluginState → List FieldEntry → PluginState
  | 0, s, _ => s
  | n + 1, s, reply => refreshUpgradableN n (fdroid_get_upgradable_cb s reply).1 reply

/-- Model of `g_str_has_prefix (str, pre)`: GLib's byte-wise prefix test, modelled
on the string's character list. -/
def strStartsWith (s p : String) : Bool :=
  p.data.isPrefixOf s.data

/-- The optional nested `package` object of a search-result element. -/
structure SearchPackage where
  version : String
  icon_url : Option String
deriving DecidableEq, Repr

/-- One element of the parsed search-reply JSON array
(gs-plugin-android.c:379-453); the string members are required by the
reply schema, `package` is optional. -/
structure SearchElement where
  id : String
  elName : String
  summary : String
  description : String
  license : String
  author : String
  web_url : String
  repository : String
  package : Option SearchPackage
deriving DecidableEq, Repr

/-- The body of the per-element loop of `fdroid_search_cb`
(gs-plugin-android.c:379-452). Returns the built app and the diagnostics
(`g_debug`) emitted for an invalid icon URL. The installed-cache
cross-reference and the icon attachment both live inside the
`if (package)` / `if (icon_url != NULL)` guards exactly as in the C.
(When `package` is absent the C reads uninitialized `version`/`icon_url`
locals; we model that case as no version and no icon, which no claim
depends on.) -/
def buildSearchApp (installedApps : List GsApp) (el : SearchElement) :
    GsApp × List String :=
  let is_installed : Bool :=
    match el.package with
    | some _ =>
      installedApps.any
        (fun ia => gs_app_get_metadata_item ia "android::package-name" = some el.id)
    | none => false
  let version : Option String := el.package.map (fun p => p.version)
  let icon_url : Option String := el.package.bind (fun p => p.icon_url)
  let a := gs_app_new (some el.id)
  let a := { a with kind := .desktopApp, managedByAndroid := true }
  let a := { a with quirks := a.quirks ++ ["has-source"] }
  let a := gs_app_set_metadata a "GnomeSoftware::Creator" (some "android")
  let a := gs_app_set_metadata a "android::package-name" (some el.id)
  let a := gs_app_set_metadata a "android-store::repository" (some el.repository)
  let a := gs_app_add_source a (some el.id)
  let a := { a with name := some el.elName, nameQuality := .normal }
  let a := { a with summary := some el.summary, description := some el.description }
  let a := { a with version := version, license := some el.license }
  let a := { a with developerName := some el.author, homepage := some el.web_url }
  let a := { a with kudos := a.kudos ++ ["sandboxed-secure"] }
  let withIcon : GsApp × List String :=
    match icon_url with
    | none => (a, [])
    | some u =>
      if ¬ strStartsWith u "http://" ∧ ¬ strStartsWith u "https://" then
        (a, ["invalid icon URL: " ++ u])
      else
        ({ a with icons := a.icons ++ [u] }, [])
  (gs_app_set_state withIcon.1 (if is_installed then .installed else .available),
   withIcon.2)

/-- Model of `fdroid_search_cb` after the D-Bus reply string was obtained: a JSON
parse failure fails the whole call, a parsed array always succeeds and
maps every element through `buildSearchApp`, collecting diagnostics. -/
def fdroid_search_cb (s : PluginState) (parsed : Except String (List SearchElement)) :
    Except String (List GsApp × List String) :=
  match parsed with
  | .error e => .error e
  | .ok elems =>
    let results := elems.map (buildSearchApp s.installedApps)
    .ok (results.map (fun r => r.1), (results.map (fun r => r.2)).flatten)

/-- The `GsAppQueryTristate` values. -/
inductive Tristate where
  | unset
  | isTrue
  | isFalse
deriving DecidableEq, Repr

/-- Model of a `GsAppQuery` at this plugin's interface: the four filter
dimensions the plugin reads, plus a count of any other query properties
that are set (`gs_app_query_get_n_properties_set` counts every set
property of the host query object, modelled from the spec since the query
type is host-library code). -/
structure GsAppQuery where
  is_source : Tristate
  is_installed : Tristate
  is_for_update : Tristate
  keywords : Option (List String)
  nOtherPropsSet : Nat
deriving DecidableEq, Repr

/-- How many of the four dimensions this plugin cares about are set. -/
def dimensionsSet (q : GsAppQuery) : Nat :=
  (if q.is_source ≠ .unset then 1 else 0) +
  (if q.is_installed ≠ .unset then 1 else 0) +
  (if q.is_for_update ≠ .unset then 1 else 0) +
  (if q.keywords.isSome then 1 else 0)

/-- Model of `gs_app_query_get_n_properties_set`: every set property counts. -/
def nPropertiesSet (q : GsAppQuery) : Nat :=
  dimensionsSet q + q.nOtherPropsSet

/-- What `gs_plugin_android_list_apps_async` does with a query: reject it,
or issue exactly one of the four D-Bus calls. -/
inductive ListAppsAction where
  | unsupported (msg : String)
  | callGetRepositories
  | callGetInstalledApps
  | callGetUpgradable
  | callSearch (query : String)
deriving DecidableEq, Repr

/-- Model of `gs_plugin_android_list_apps_async` (gs-plugin-android.c:466-548):
the validation gate and the four-way dispatch. `" ".intercalate` models
`g_strjoinv (" ", keywords)`. -/
def gs_plugin_android_list_apps_async (q : GsAppQuery) : ListAppsAction :=
  if nPropertiesSet q ≠ 1 ∨ q.is_source = .isFalse ∨
      q.is_installed = .isFalse ∨ q.is_for_update = .isFalse then
    .unsupported "Unsupported query"
  else if q.is_source = .isTrue then .callGetRepositories
  else if q.is_installed = .isTrue then .callGetInstalledApps
  else if q.is_for_update = .isTrue then .callGetUpgradable
  else
    match q.keywords with
    | some kws => .callSearch (" ".intercalate kws)
    | none => .unsupported "Unsupported query type"

/-- A remote (D-Bus) error as delivered to a `*_call_finish`:
`remoteName` is the transport envelope (the embedded D-Bus remote error
name) that `g_dbus_error_strip_remote_error` removes. -/
structure RemoteError where
  remoteName : Option String
  message : String
deriving DecidableEq, Repr

/-- Modelled from the spec: `g_dbus_error_strip_remote_error` is GLib code
(not in `src/`); per the spec, remote errors are "unwrapped from their
transport envelope before being surfaced". -/
def stripRemoteError (e : RemoteError) : RemoteError :=
  { e with remoteName := none }

/-- An error surfaced on a task: either a stripped remote error or an
error the plugin created locally (`g_task_return_new_error`). -/
inductive CallError where
  | remote (e : RemoteError)
  | localError (msg : String)
deriving DecidableEq, Repr

/-- The `GsPluginInstallAppsFlags` subset checked by this plugin. -/
structure InstallFlags where
  noDownload : Bool
  noApply : Bool
deriving DecidableEq, Repr

/-- The filtering loop of `gs_plugin_android_install_apps_async`
(gs-plugin-android.c:626-648), returning
(input list with its in-place state mutations, install batch, skip
diagnostics); `none` models the `g_assert` abort on a Repository-kind
entity. Note the C sets each included app's state to INSTALLING inside
this loop, before the batch-size check. -/
def installLoop : List GsApp → Option (List GsApp × List GsApp × List String)
  | [] => some ([], [], [])
  | app :: rest =>
    if app.kind = .repository then none
    else if ¬ app.managedByAndroid then
      (installLoop rest).map
        (fun r => (app :: r.1, r.2.1, "App is not managed by us, not installing" :: r.2.2))
    else
      match gs_app_get_metadata_item app "android::package-name" with
      | none =>
        (installLoop rest).map
          (fun r => (app :: r.1, r.2.1,
                     "No package name found for app, skipping installation" :: r.2.2))
      | some _ =>
        let app2 := gs_app_set_state app .installing
        (installLoop rest).map (fun r => (app2 :: r.1, app2 :: r.2.1, r.2.2))

/-- Outcome of `gs_plugin_android_install_apps_async`: an immediate task
error, or a D-Bus `Install` call carrying the package name argument and
the task data (the one-element install list). -/
inductive InstallAction where
  | taskError (msg : String)
  | dbusInstall (packageName : Option String) (installList : List GsApp)
deriving DecidableEq, Repr

/-- Model of `gs_plugin_android_install_apps_async` (gs-plugin-android.c:598-668):
flags gate, filtering loop (which already mutates states), one-app check,
then the `Install` D-Bus call. Returns (mutated input list, action);
`none` models the in-loop assertion abort. -/
def gs_plugin_android_install_apps_async (list : List GsApp) (flags : InstallFlags) :
    Option (List GsApp × InstallAction) :=
  if flags.noDownload ∨ flags.noApply then
    some (list, .taskError "Unsupported flags")
  else
    (installLoop list).map (fun r =>
      match r.2.1 with
      | [b] =>
        (r.1, .dbusInstall (gs_app_get_metadata_item b "android::package-name") [b])
      | _ => (r.1, .taskError "Can only install one app at a time"))

/-- Model of `fdroid_install_app_cb` (gs-plugin-android.c:550-588): on remote
failure the app's state is recovered and the stripped remote error is
returned; on success the app becomes INSTALLED. Returns the (mutated)
install list and the task outcome. -/
def fdroid_install_app_cb (installList : List GsApp)
    (result : Except RemoteError Unit) : List GsApp × Except CallError Bool :=
  match installList with
  | [] => ([], .error (.localError "No app in install list"))
  | app :: rest =>
    match result with
    | .error e =>
      (gs_app_set_state_recover app :: rest, .error (.remote (stripRemoteError e)))
    | .ok _ =>
      (gs_app_set_state app .installed :: rest, .ok true)

/-- The filtering loop of `gs_plugin_android_uninstall_apps_async`
(gs-plugin-android.c:782-795): only the ownership filter, no package-name
filter; included apps are set to REMOVING inside the loop. `none` models
the `g_assert` abort on a Repository-kind entity. -/
def uninstallLoop : List GsApp → Option (List GsApp × List GsApp × List String)
  | [] => some ([], [], [])
  | app :: rest =>
    if app.kind = .repository then none
    else if ¬ app.managedByAndroid then
      (uninstallLoop rest).map
        (fun r => (app :: r.1, r.2.1, "App is not managed by us, not uninstalling" :: r.2.2))
    else
      let app2 := gs_app_set_state app .removing
      (uninstallLoop rest).map (fun r => (app2 :: r.1, app2 :: r.2.1, r.2.2))

/-- Outcome of `gs_plugin_android_uninstall_apps_async`. -/
inductive UninstallAction where
  | taskError (msg : String)
  | dbusUninstall (packageName : Option String) (target : GsApp)
deriving DecidableEq, Repr

/-- Model of `gs_plugin_android_uninstall_apps_async` (gs-plugin-android.c:763-813):
filtering loop (which already mutates states), one-app check, then the
`UninstallApp` D-Bus call with the app's package name. -/
def gs_plugin_android_uninstall_apps_async (list : List GsApp) :
    Option (List GsApp × UninstallAction) :=
  (uninstallLoop list).map (fun r =>
    match r.2.1 with
    | [b] =>
      (r.1, .dbusUninstall (gs_app_get_metadata_item b "android::package-name") b)
    | _ => (r.1, .taskError "Can only uninstall one app at a time"))

/-- The batch-building loop of `gs_plugin_android_update_apps_async`
(gs-plugin-android.c:921-929): the ONLY filter is a present
`android::package-name` metadata item — there is no ownership check;
each included app is set to INSTALLING. Returns (mutated input list,
package-name batch). -/
def updateLoop : List GsApp → List GsApp × List String
  | [] => ([], [])
  | app :: rest =>
    let r := updateLoop rest
    match gs_app_get_metadata_item app "android::package-name" with
    | none => (app :: r.1, r.2)
    | some pn => (gs_app_set_state app .installing :: r.1, pn :: r.2)

/-- The `GsPluginUpdateAppsFlags` subset checked by this plugin. -/
structure UpdateFlags where
  noApply : Bool
deriving DecidableEq, Repr

/-- Outcome of `gs_plugin_android_update_apps_async`: immediate trivial
success (no-apply), or the `UpgradePackages` D-Bus call carrying the
package-name batch and the task data — which is the WHOLE (mutated)
input list, not the filtered batch (gs-plugin-android.c:931). -/
inductive UpdateAction where
  | taskSuccess
  | dbusUpgrade (packages : List String) (taskList : List GsApp)
deriving DecidableEq, Repr

/-- Model of `gs_plugin_android_update_apps_async` (gs-plugin-android.c:894-941). -/
def gs_plugin_android_update_apps_async (list : List GsApp) (flags : UpdateFlags) :
    List GsApp × UpdateAction :=
  if flags.noApply then (list, .taskSuccess)
  else
    let r := updateLoop list
    (r.1, .dbusUpgrade r.2 r.1)

/-- Model of `fdroid_upgrade_packages_cb` (gs-plugin-android.c:850-884): on remote
failure the stripped error is returned (no rollback); on a `false` reply a
local error; on success EVERY app in the task-data list is set to
INSTALLED. -/
def fdroid_upgrade_packages_cb (taskList : List GsApp)
    (result : Except RemoteError Bool) : List GsApp × Except CallError Bool :=
  match result with
  | .error e => (taskList, .error (.remote (stripRemoteError e)))
  | .ok false => (taskList, .error (.localError "Failed to upgrade packages"))
  | .ok true => (taskList.map (fun a => gs_app_set_state a .installed), .ok true)

/-! Concrete fixtures used by witnesses and counterexamples. -/

/-- A plugin-owned, Available app with `android::package-name` metadata. -/
def mkOwnedApp (pn : String) : GsApp :=
  gs_app_set_metadata
    { gs_app_new (some pn) with
        kind := .desktopApp, managedByAndroid := true, state := .available }
    "android::package-name" (some pn)

/-- An app NOT owned by this plugin but carrying package-name metadata. -/
def foreignPkgApp : GsApp :=
  gs_app_set_metadata
    { gs_app_new (some "c") with
        kind := .desktopApp, managedByAndroid := false, state := .installed }
    "android::package-name" (some "com.x")

/-- An installed-cache entry whose package-name metadata is `x.y.z`. -/
def cacheAppXYZ : GsApp :=
  gs_app_set_metadata (gs_app_new (some "x.y.z")) "android::package-name" (some "x.y.z")

/-- A search element with id `x.y.z` and no nested `package` object. -/
def elementNoPackage : SearchElement :=
  { id := "x.y.z", elName := "n", summary := "s", description := "d",
    license := "l", author := "a", web_url := "w", repository := "r",
    package := none }

/-- A search element whose nested package carries an `ftp://` icon URL. -/
def elementFtpIcon : SearchElement :=
  { elementNoPackage with
      package := some { version := "1", icon_url := some "ftp://example.com/icon.png" } }

/-- A field-map entry with every field present. -/
def fullEntry : FieldEntry :=
  { packageName := some "p", entryName := some "n", id := some "i",
    currentVersion := some "1", availableVersion := some "2",
    repository := some "r" }

/-- A field-map entry lacking `packageName`. -/
def entryNoPkg : FieldEntry :=
  { packageName := none, entryName := some "n", id := some "i",
    currentVersion := none, availableVersion := none, repository := none }

/-! Projection lemmas for the modelled host-library operations. -/

theorem gs_app_set_state_state (a : GsApp) (st : GsAppState) :
    (gs_app_set_state a st).state = st := by
  cases st <;> rfl

theorem gs_app_set_state_metadata (a : GsApp) (st : GsAppState) :
    (gs_app_set_state a st).metadata = a.metadata := by
  cases st <;> rfl

theorem gs_app_set_state_icons (a : GsApp) (st : GsAppState) :
    (gs_app_set_state a st).icons = a.icons := by
  cases st <;> rfl

theorem gs_app_set_state_sources (a : GsApp) (st : GsAppState) :
    (gs_app_set_state a st).sources = a.sources := by
  cases st <;> rfl

theorem gs_app_set_state_installing_recover (a : GsApp) :
    (gs_app_set_state a .installing).stateRecover = a.state := rfl

theorem setDecodedName_sources (a : GsApp) (en : Option String) (pn : String) :
    (setDecodedName a en pn).sources = a.sources := by
  unfold setDecodedName
  cases en with
  | none => rfl
  | some n => dsimp only; split <;> rfl

theorem gs_app_set_metadata_sources (a : GsApp) (k : String) (v : Option String) :
    (gs_app_set_metadata a k v).sources = a.sources := by
  cases v <;> rfl

/-- Length invariant of repeated updatable refreshes. -/
theorem refreshUpgradableN_length (n : Nat) (s : PluginState) (r : List FieldEntry) :
    (refreshUpgradableN n s r).updatableApps.length
      = s.updatableApps.length + n * (r.filterMap decodeUpgradableEntry).length := by
  induction n generalizing s with
  | zero => simp [refreshUpgradableN]
  | succ n ih =>
    rw [refreshUpgradableN, ih]
    simp only [fdroid_get_upgradable_cb, List.length_append]
    ring

/-- The update batch-building loop preserves the input list's length. -/
theorem updateLoop_length (l : List GsApp) : (updateLoop l).1.length = l.length := by
  induction l with
  | nil => rfl
  | cons a rest ih =>
    unfold updateLoop
    cases gs_app_get_metadata_item a "android::package-name" <;>
      simp only [List.length_cons, ih]

/-- C6: two consecutive installed-listing refreshes leave the installed
cache holding exactly the set decoded from the latest reply — the first
reply leaves no trace, because the cache is fully cleared before
repopulation on each call. -/
theorem C6_installed_cache_latest_only (s : PluginState) (r1 r2 : List FieldEntry) :
    (fdroid_get_installed_apps_cb (fdroid_get_installed_apps_cb s r1).1 r2).1.installedApps
        = r2.filterMap decodeInstalledEntry ∧
    (fdroid_get_installed_apps_cb (fdroid_get_installed_apps_cb s r1).1 r2).1.installedApps
        = (fdroid_get_installed_apps_cb s r2).1.installedApps :=
  ⟨rfl, rfl⟩

/-- C5: starting from an empty updatable cache, `n` refresh calls whose
reply decodes to one entry each leave `n` entries in the updatable cache —
the cache is appended to, never cleared, by updatable refresh. -/
theorem C5_updatable_cache_accumulates (n : Nat) (s : PluginState) (e : FieldEntry)
    (hs : s.updatableApps = []) (he : (decodeUpgradableEntry e).isSome) :
    (refreshUpgradableN n s [e]).updatableApps.length = n := by
  rw [refreshUpgradableN_length, hs]
  obtain ⟨a, ha⟩ := Option.isSome_iff_exists.mp he
  simp [List.filterMap, ha]

/-- Witness for C5 at three refreshes of a fully populated entry. -/
theorem C5_witness :
    (PluginState.mk [] []).updatableApps = [] ∧
    (decodeUpgradableEntry fullEntry).isSome = true ∧
    (refreshUpgradableN 3 (PluginState.mk [] []) [fullEntry]).updatableApps.length = 3 :=
  ⟨rfl, by decide, C5_updatable_cache_accumulates 3 (PluginState.mk [] []) fullEntry rfl
    (by decide)⟩

/-- C10: on a successful `UpgradePackages` reply, the continuation walks the
WHOLE (state-mutated) input list — whose length equals the original input's,
including apps that had no package name and were never in the remote batch —
and sets every app to Installed. -/
theorem C10_update_success_sets_whole_list (list : List GsApp) :
    gs_plugin_android_update_apps_async list (UpdateFlags.mk false)
        = ((updateLoop list).1, .dbusUpgrade (updateLoop list).2 (updateLoop list).1) ∧
    (updateLoop list).1.length = list.length ∧
    (fdroid_upgrade_packages_cb (updateLoop list).1 (.ok true)).1
        = (updateLoop list).1.map (fun a => gs_app_set_state a .installed) ∧
    ((fdroid_upgrade_packages_cb (updateLoop list).1 (.ok true)).1.all
        (fun a => a.state == .installed)) = true := by
  refine ⟨rfl, updateLoop_length list, rfl, ?_⟩
  simp only [fdroid_upgrade_packages_cb, List.all_eq_true, List.mem_map]
  rintro x ⟨a, _, rfl⟩
  simp [gs_app_set_state_state]

/-- The installed-cache cross-reference predicate of `fdroid_search_cb`:
some installed entity's stored `android::package-name` metadata equals the
given id. -/
def installedCacheMatches (installedApps : List GsApp) (id : String) : Bool :=
  installedApps.any
    (fun ia => gs_app_get_metadata_item ia "android::package-name" = some id)

/-- C2 (amended): a search element is marked Installed iff it carries a
nested `package` object AND its id matches an installed entity's
package-name metadata; in every other case — including a matching id on an
element without a `package` object — it is marked Available. -/
theorem C2_search_state_amended (cache : List GsApp) (el : SearchElement) :
    (buildSearchApp cache el).1.state
      = (if el.package.isSome && installedCacheMatches cache el.id then
           GsAppState.installed
         else GsAppState.available) := by
  unfold buildSearchApp
  rw [gs_app_set_state_state]
  cases hp : el.package with
  | none => simp [hp]
  | some p => simp [hp, installedCacheMatches]

/-- C2 counterexample: the installed cache holds an entity with
package-name metadata `x.y.z` and the search element's id is `x.y.z`, yet
the produced app's state is Available, because the element has no nested
`package` object and the cross-reference only runs inside the
`if (package)` guard. -/
theorem C2_counterexample :
    gs_app_get_metadata_item cacheAppXYZ "android::package-name" = some "x.y.z" ∧
    elementNoPackage.id = "x.y.z" ∧
    (buildSearchApp [cacheAppXYZ] elementNoPackage).1.state = GsAppState.available ∧
    GsAppState.available ≠ GsAppState.installed := by
  decide

/-- C8: a query with more than one of the four filter dimensions set, or
with any tristate dimension explicitly FALSE, is rejected with the
unsupported-query error — a return path that issues no D-Bus call. -/
theorem C8_query_validation (q : GsAppQuery)
    (h : 1 < dimensionsSet q ∨ q.is_source = .isFalse ∨
         q.is_installed = .isFalse ∨ q.is_for_update = .isFalse) :
    gs_plugin_android_list_apps_async q = .unsupported "Unsupported query" := by
  unfold gs_plugin_android_list_apps_async
  rw [if_pos]
  rcases h with h | h | h | h
  · left
    unfold nPropertiesSet
    omega
  · exact Or.inr (Or.inl h)
  · exact Or.inr (Or.inr (Or.inl h))
  · exact Or.inr (Or.inr (Or.inr h))

/-- Witness for C8: both is-installed and is-source set to TRUE. -/
theorem C8_witness :
    (1 < dimensionsSet
        (GsAppQuery.mk .isTrue .isTrue .unset none 0) ∨
      (GsAppQuery.mk .isTrue .isTrue .unset none 0).is_source = .isFalse ∨
      (GsAppQuery.mk .isTrue .isTrue .unset none 0).is_installed = .isFalse ∨
      (GsAppQuery.mk .isTrue .isTrue .unset none 0).is_for_update = .isFalse) ∧
    gs_plugin_android_list_apps_async (GsAppQuery.mk .isTrue .isTrue .unset none 0)
      = .unsupported "Unsupported query" :=
  ⟨Or.inl (by decide),
   C8_query_validation (GsAppQuery.mk .isTrue .isTrue .unset none 0) (Or.inl (by decide))⟩

/-- C9: a search element whose icon URL starts with neither `http://` nor
`https://` yields an app with no icon and an emitted diagnostic, while a
parsed search reply always completes successfully — an invalid icon scheme
is never an error. -/
theorem C9_invalid_icon_scheme (cache : List GsApp) (el : SearchElement)
    (p : SearchPackage) (u : String)
    (hp : el.package = some p) (hu : p.icon_url = some u)
    (h1 : strStartsWith u "http://" = false)
    (h2 : strStartsWith u "https://" = false) :
    (buildSearchApp cache el).1.icons = [] ∧
    (buildSearchApp cache el).2 = ["invalid icon URL: " ++ u] ∧
    ∀ (s : PluginState) (elems : List SearchElement),
      (fdroid_search_cb s (.ok elems)).isOk = true := by
  have hb : el.package.bind (fun q => q.icon_url) = some u := by
    rw [hp]; exact hu
  unfold buildSearchApp
  rw [hb]
  simp only [h1, h2, Bool.false_eq_true, not_false_iff, and_self, if_true,
    gs_app_set_state_icons]
  refine ⟨?_, by simp, fun s elems => rfl⟩
  simp [gs_app_new, gs_app_set_metadata, gs_app_add_source]

/-- Witness for C9 at the spec's `ftp://example.com/icon.png` example. -/
theorem C9_witness :
    elementFtpIcon.package = some (SearchPackage.mk "1" (some "ftp://example.com/icon.png")) ∧
    strStartsWith "ftp://example.com/icon.png" "http://" = false ∧
    strStartsWith "ftp://example.com/icon.png" "https://" = false ∧
    (buildSearchApp [cacheAppXYZ] elementFtpIcon).1.icons = [] ∧
    (buildSearchApp [cacheAppXYZ] elementFtpIcon).2
      = ["invalid icon URL: " ++ "ftp://example.com/icon.png"] :=
  ⟨rfl, by decide, by decide,
   (C9_invalid_icon_scheme [cacheAppXYZ] elementFtpIcon
      (SearchPackage.mk "1" (some "ftp://example.com/icon.png"))
      "ftp://example.com/icon.png" rfl rfl (by decide) (by decide)).1,
   (C9_invalid_icon_scheme [cacheAppXYZ] elementFtpIcon
      (SearchPackage.mk "1" (some "ftp://example.com/icon.png"))
      "ftp://example.com/icon.png" rfl rfl (by decide) (by decide)).2.1⟩

/-- An empty install batch means every input entity was skipped by the
filter, and skipped entities pass through unmutated. -/
theorem installLoop_empty_batch (l l' : List GsApp) (d : List String)
    (h : installLoop l = some (l', [], d)) : l' = l := by
  induction l generalizing l' d with
  | nil =>
    simp only [installLoop, Option.some.injEq, Prod.mk.injEq] at h
    exact h.1.symm
  | cons a rest ih =>
    unfold installLoop at h
    split at h
    · exact absurd h (by simp)
    · split at h
      · rw [Option.map_eq_some'] at h
        obtain ⟨r, hr, he⟩ := h
        simp only [Prod.mk.injEq] at he
        rw [← he.1, ih r.1 r.2.2 (by rw [hr, ← he.2.1])]
      · split at h
        · rw [Option.map_eq_some'] at h
          obtain ⟨r, hr, he⟩ := h
          simp only [Prod.mk.injEq] at he
          rw [← he.1, ih r.1 r.2.2 (by rw [hr, ← he.2.1])]
        · rw [Option.map_eq_some'] at h
          obtain ⟨r, hr, he⟩ := h
          simp only [Prod.mk.injEq] at he
          exact absurd he.2.1 (by simp)

/-- An empty uninstall batch means every input entity was skipped by the
ownership filter, and skipped entities pass through unmutated. -/
theorem uninstallLoop_empty_batch (l l' : List GsApp) (d : List String)
    (h : uninstallLoop l = some (l', [], d)) : l' = l := by
  induction l generalizing l' d with
  | nil =>
    simp only [uninstallLoop, Option.some.injEq, Prod.mk.injEq] at h
    exact h.1.symm
  | cons a rest ih =>
    unfold uninstallLoop at h
    split at h
    · exact absurd h (by simp)
    · split at h
      · rw [Option.map_eq_some'] at h
        obtain ⟨r, hr, he⟩ := h
        simp only [Prod.mk.injEq] at he
        rw [← he.1, ih r.1 r.2.2 (by rw [hr, ← he.2.1])]
      · rw [Option.map_eq_some'] at h
        obtain ⟨r, hr, he⟩ := h
        simp only [Prod.mk.injEq] at he
        exact absurd he.2.1 (by simp)

/-- C1 (amended): when the filtered install or uninstall batch has a size
other than one, the call returns the unsupported-operation error without
issuing a D-Bus call; the input list is untouched only in the zero-batch
case — entities that made it into an oversized batch have already been set
to Installing (install) or Removing (uninstall) inside the filtering loop,
before the size check. -/
theorem C1_batch_size_amended (ilist ulist : List GsApp) (iflags : InstallFlags)
    (hf : iflags.noDownload = false ∧ iflags.noApply = false)
    (il' ib : List GsApp) (idg : List String)
    (hi : installLoop ilist = some (il', ib, idg)) (hib : ib.length ≠ 1)
    (ul' ub : List GsApp) (udg : List String)
    (hu : uninstallLoop ulist = some (ul', ub, udg)) (hub : ub.length ≠ 1) :
    gs_plugin_android_install_apps_async ilist iflags
        = some (il', .taskError "Can only install one app at a time") ∧
    (ib = [] → il' = ilist) ∧
    gs_plugin_android_uninstall_apps_async ulist
        = some (ul', .taskError "Can only uninstall one app at a time") ∧
    (ub = [] → ul' = ulist) := by
  refine ⟨?_, fun hnil => installLoop_empty_batch ilist il' idg (hnil ▸ hi), ?_,
    fun hnil => uninstallLoop_empty_batch ulist ul' udg (hnil ▸ hu)⟩
  · unfold gs_plugin_android_install_apps_async
    rw [if_neg (by simp [hf.1, hf.2]), hi, Option.map_some']
    rcases ib with _ | ⟨b, _ | ⟨b2, bs⟩⟩
    · rfl
    · exact absurd rfl hib
    · rfl
  · unfold gs_plugin_android_uninstall_apps_async
    rw [hu, Option.map_some']
    rcases ub with _ | ⟨b, _ | ⟨b2, bs⟩⟩
    · rfl
    · exact absurd rfl hub
    · rfl

/-- Witness for C1 (amended): an oversized install batch (two owned apps)
and an empty uninstall batch (one foreign app). -/
theorem C1_witness :
    (installLoop [mkOwnedApp "a", mkOwnedApp "b"]).map (fun r => r.2.1.length)
        = some 2 ∧
    (uninstallLoop [foreignPkgApp]).map (fun r => r.2.1.length) = some 0 ∧
    gs_plugin_android_install_apps_async [mkOwnedApp "a", mkOwnedApp "b"]
        (InstallFlags.mk false false)
      = some ([gs_app_set_state (mkOwnedApp "a") .installing,
               gs_app_set_state (mkOwnedApp "b") .installing],
              .taskError "Can only install one app at a time") ∧
    gs_plugin_android_uninstall_apps_async [foreignPkgApp]
      = some ([foreignPkgApp], .taskError "Can only uninstall one app at a time") ∧
    [foreignPkgApp] = [foreignPkgApp] :=
  ⟨by decide, by decide,
   (C1_batch_size_amended [mkOwnedApp "a", mkOwnedApp "b"] [foreignPkgApp]
      (InstallFlags.mk false false) ⟨rfl, rfl⟩
      [gs_app_set_state (mkOwnedApp "a") .installing,
       gs_app_set_state (mkOwnedApp "b") .installing]
      [gs_app_set_state (mkOwnedApp "a") .installing,
       gs_app_set_state (mkOwnedApp "b") .installing]
      [] (by decide) (by decide)
      [foreignPkgApp] [] ["App is not managed by us, not uninstalling"]
      (by decide) (by decide)).1,
   (C1_batch_size_amended [mkOwnedApp "a", mkOwnedApp "b"] [foreignPkgApp]
      (InstallFlags.mk false false) ⟨rfl, rfl⟩
      [gs_app_set_state (mkOwnedApp "a") .installing,
       gs_app_set_state (mkOwnedApp "b") .installing]
      [gs_app_set_state (mkOwnedApp "a") .installing,
       gs_app_set_state (mkOwnedApp "b") .installing]
      [] (by decide) (by decide)
      [foreignPkgApp] [] ["App is not managed by us, not uninstalling"]
      (by decide) (by decide)).2.2.1,
   rfl⟩

/-- C1 counterexample: an install call with two owned, resolvable apps
returns the unsupported-operation error as the claim says, but both input
entities' states HAVE been mutated to Installing (they started Available),
refuting "no entity in the original input list has its state mutated". -/
theorem C1_counterexample :
    (gs_plugin_android_install_apps_async [mkOwnedApp "a", mkOwnedApp "b"]
        (InstallFlags.mk false false)).map
        (fun r => (r.1.map GsApp.state, r.2))
      = some ([.installing, .installing],
              .taskError "Can only install one app at a time") ∧
    [(mkOwnedApp "a").state, (mkOwnedApp "b").state]
      = [.available, .available] := by
  decide

/-- C3 (amended): install and uninstall skip a non-owned entity — it
passes through unmutated, is excluded from the batch, and only a
diagnostic is recorded, so it can never be the reason for an error; the
update batch, however, has NO ownership filter: it keys only on
package-name metadata, so a non-owned entity with a package name is
included in the batch and set to Installing. -/
theorem C3_ownership_skip_amended (a : GsApp) (l : List GsApp)
    (hm : a.managedByAndroid = false) (hk : a.kind ≠ .repository) :
    installLoop (a :: l)
        = (installLoop l).map
            (fun r => (a :: r.1, r.2.1,
                       "App is not managed by us, not installing" :: r.2.2)) ∧
    uninstallLoop (a :: l)
        = (uninstallLoop l).map
            (fun r => (a :: r.1, r.2.1,
                       "App is not managed by us, not uninstalling" :: r.2.2)) ∧
    ∀ pn, gs_app_get_metadata_item a "android::package-name" = some pn →
      (updateLoop (a :: l)).2 = pn :: (updateLoop l).2 ∧
      (updateLoop (a :: l)).1
        = gs_app_set_state a .installing :: (updateLoop l).1 := by
  refine ⟨?_, ?_, fun pn hpn => ?_⟩
  · conv_lhs => rw [installLoop]
    rw [if_neg hk, if_pos (by simp [hm])]
  · conv_lhs => rw [uninstallLoop]
    rw [if_neg hk, if_pos (by simp [hm])]
  · constructor <;> (conv_lhs => rw [updateLoop]) <;> rw [hpn]

/-- Witness for C3 (amended) at a concrete non-owned app. -/
theorem C3_witness :
    foreignPkgApp.managedByAndroid = false ∧
    foreignPkgApp.kind ≠ AsComponentKind.repository ∧
    installLoop [foreignPkgApp]
        = some ([foreignPkgApp], [], ["App is not managed by us, not installing"]) ∧
    (updateLoop [foreignPkgApp]).2 = ["com.x"] :=
  ⟨rfl, by decide,
   (C3_ownership_skip_amended foreignPkgApp [] rfl (by decide)).1,
   ((C3_ownership_skip_amended foreignPkgApp [] rfl (by decide)).2.2
      "com.x" (by decide)).1⟩

/-- C3 counterexample: a non-owned entity carrying package-name metadata
is NOT skipped by the update batch — its package name is sent in the
`UpgradePackages` call and its state is set to Installing, refuting the
claim for the update operation. -/
theorem C3_counterexample :
    foreignPkgApp.managedByAndroid = false ∧
    gs_plugin_android_update_apps_async [foreignPkgApp] (UpdateFlags.mk false)
      = ([gs_app_set_state foreignPkgApp .installing],
         .dbusUpgrade ["com.x"] [gs_app_set_state foreignPkgApp .installing]) ∧
    (gs_app_set_state foreignPkgApp .installing).state ≠ foreignPkgApp.state := by
  decide

/-- C4: a single-app install that fails remotely leaves the app's state
equal to its pre-call state (the Installing transition saved it, the
failure path recovers it), and the surfaced error is the remote error with
its transport envelope stripped. -/
theorem C4_install_rollback (app : GsApp) (pn : String) (e : RemoteError)
    (hk : app.kind ≠ .repository) (hm : app.managedByAndroid = true)
    (hp : gs_app_get_metadata_item app "android::package-name" = some pn) :
    gs_plugin_android_install_apps_async [app] (InstallFlags.mk false false)
        = some ([gs_app_set_state app .installing],
                .dbusInstall (some pn) [gs_app_set_state app .installing]) ∧
    (fdroid_install_app_cb [gs_app_set_state app .installing]
        (.error e)).1.map GsApp.state = [app.state] ∧
    (fdroid_install_app_cb [gs_app_set_state app .installing] (.error e)).2
        = .error (.remote (stripRemoteError e)) ∧
    (stripRemoteError e).remoteName = none ∧
    (stripRemoteError e).message = e.message := by
  refine ⟨?_, ?_, rfl, rfl, rfl⟩
  · unfold gs_plugin_android_install_apps_async installLoop
    rw [if_neg (by simp), if_neg hk, if_neg (by simp [hm]), hp]
    simp only [installLoop, Option.map_some']
    have hmeta : gs_app_get_metadata_item (gs_app_set_state app .installing)
        "android::package-name" = some pn := by
      unfold gs_app_get_metadata_item
      rw [gs_app_set_state_metadata]
      exact hp
    rw [hmeta]
  · simp only [fdroid_install_app_cb, List.map_cons, List.map_nil,
      List.cons.injEq, and_true]
    unfold gs_app_set_state_recover
    rw [gs_app_set_state_installing_recover]

/-- Witness for C4 at a concrete owned app and remote error. -/
theorem C4_witness :
    (mkOwnedApp "p").kind ≠ AsComponentKind.repository ∧
    (mkOwnedApp "p").managedByAndroid = true ∧
    gs_app_get_metadata_item (mkOwnedApp "p") "android::package-name" = some "p" ∧
    (fdroid_install_app_cb [gs_app_set_state (mkOwnedApp "p") .installing]
        (.error (RemoteError.mk (some "org.freedesktop.DBus.Error.Failed") "boom"))).1.map
          GsApp.state = [(mkOwnedApp "p").state] ∧
    (fdroid_install_app_cb [gs_app_set_state (mkOwnedApp "p") .installing]
        (.error (RemoteError.mk (some "org.freedesktop.DBus.Error.Failed") "boom"))).2
      = .error (.remote (RemoteError.mk none "boom")) :=
  ⟨by decide, rfl, by decide,
   (C4_install_rollback (mkOwnedApp "p") "p"
      (RemoteError.mk (some "org.freedesktop.DBus.Error.Failed") "boom")
      (by decide) rfl (by decide)).2.1,
   (C4_install_rollback (mkOwnedApp "p") "p"
      (RemoteError.mk (some "org.freedesktop.DBus.Error.Failed") "boom")
      (by decide) rfl (by decide)).2.2.1⟩

/-- C7: a field-map entry lacking `packageName` is silently skipped by
both decoders (no entity, no error), and every produced entity's source
tag list is exactly the entry's `id` field. -/
theorem C7_decode_skip_and_source_tag (e : FieldEntry) :
    (e.packageName = none →
      decodeInstalledEntry e = none ∧ decodeUpgradableEntry e = none) ∧
    (∀ a, decodeInstalledEntry e = some a → a.sources = [e.id]) ∧
    (∀ a, decodeUpgradableEntry e = some a → a.sources = [e.id]) := by
  refine ⟨fun h => ?_, fun a ha => ?_, fun a ha => ?_⟩
  · constructor <;> simp [decodeInstalledEntry, decodeUpgradableEntry, h]
  · cases hpn : e.packageName with
    | none => simp [decodeInstalledEntry, hpn] at ha
    | some pn =>
      simp only [decodeInstalledEntry, hpn, Option.some.injEq] at ha
      subst ha
      simp [gs_app_set_state_sources, gs_app_add_source, gs_app_set_metadata_sources,
        setDecodedName_sources, gs_app_new]
  · cases hpn : e.packageName with
    | none => simp [decodeUpgradableEntry, hpn] at ha
    | some pn =>
      simp only [decodeUpgradableEntry, hpn, Option.some.injEq] at ha
      subst ha
      cases e.repository <;> cases e.currentVersion <;> cases e.availableVersion <;>
        simp [gs_app_set_state_sources, gs_app_add_source, gs_app_set_metadata_sources,
          setDecodedName_sources, gs_app_new]

/-- Witness for C7 at a fully-populated entry and an entry missing
`packageName`. -/
theorem C7_witness :
    entryNoPkg.packageName = none ∧
    decodeInstalledEntry entryNoPkg = none ∧
    decodeUpgradableEntry entryNoPkg = none ∧
    (decodeInstalledEntry fullEntry).map GsApp.sources = some [some "i"] ∧
    (decodeUpgradableEntry fullEntry).map GsApp.sources = some [some "i"] := by
  refine ⟨rfl, ((C7_decode_skip_and_source_tag entryNoPkg).1 rfl).1,
    ((C7_decode_skip_and_source_tag entryNoPkg).1 rfl).2, ?_, ?_⟩
  · cases hd : decodeInstalledEntry fullEntry with
    | none => exact absurd hd (by decide)
    | some a =>
      have := (C7_decode_skip_and_source_tag fullEntry).2.1 a hd
      simp [this]
      rfl
  · cases hd : decodeUpgradableEntry fullEntry with
    | none => exact absurd hd (by decide)
    | some a =>
      have := (C7_decode_skip_and_source_tag fullEntry).2.2 a hd
      simp [this]
      rfl

end AndroidPlugin
